import Mathlib

/-!
Shallow embedding of the scoring engine of the WebSummarizer repository
(`server/services/seo-analyzer.ts`, class `SeoAnalyzer`), together with
theorems settling the specification claims about it.

JavaScript strings are modelled as Lean `String` (all comparisons are on
code points; the concrete strings involved are such that this coincides
with UTF-16 length) and JS numbers occurring as scores are modelled as
`Nat` or `Int` (all score arithmetic in the source stays integral).  The
average comparisons are modelled exactly by cross-multiplication, and the
one floating-point computation whose rounding is observable —
`Math.round((totalScore / 1200) * 100)` — is modelled by an exact account
of IEEE binary64 arithmetic (`nearestBinary64`, `jsOverallScore`), as noted
at the definitions.
-/

set_option maxHeartbeats 1000000

set_option maxRecDepth 8192

/-! ## String helpers (JS string primitives) -/

/-- `matchesFront pat l` : `pat` occurs at the front of `l`. -/
def matchesFront : List Char → List Char → Bool
  | [], _ => true
  | _ :: _, [] => false
  | p :: ps, c :: cs => p == c && matchesFront ps cs

/-- `containsSeq pat l` : `pat` occurs contiguously somewhere in `l`. -/
def containsSeq (pat : List Char) : List Char → Bool
  | [] => pat.isEmpty
  | c :: t => matchesFront pat (c :: t) || containsSeq pat t

/-- JS `s.includes(pat)`. -/
def strIncludes (s pat : String) : Bool := containsSeq pat.data s.data

/-- JS `s.startsWith(pat)`. -/
def strStartsWith (s pat : String) : Bool := matchesFront pat.data s.data

/-- JS `s.toLowerCase()` (ASCII range; the heuristics only use ASCII needles). -/
def strToLower (s : String) : String := String.mk (s.data.map Char.toLower)

/-- JS `\w` character class: `[A-Za-z0-9_]`. -/
def isWordCharJs (c : Char) : Bool := c.isAlpha || c.isDigit || c == '_'

/-- JS whitespace as used by `\s` and `String.trim` (ASCII part). -/
def isJsWS (c : Char) : Bool :=
  c == ' ' || c == '\t' || c == '\n' || c == '\r' || c == '\x0b' || c == '\x0c'

/-- JS `s.trim()` on a character list. -/
def trimJs (l : List Char) : List Char :=
  ((l.dropWhile isJsWS).reverse.dropWhile isJsWS).reverse

/-- JS `s.split('\n\n')` (used for the paragraph heuristic). -/
def splitNN (acc : List Char) : List Char → List (List Char)
  | '\n' :: '\n' :: rest => acc.reverse :: splitNN [] rest
  | c :: rest => splitNN (c :: acc) rest
  | [] => [acc.reverse]

/-- Consume a maximal run of `[a-z]`, returning its length and the rest. -/
def takeLowers : List Char → Nat × List Char
  | [] => (0, [])
  | c :: cs =>
    if c.isLower then
      let r := takeLowers cs
      (r.1 + 1, r.2)
    else (0, c :: cs)

/-- Regex `/\b[A-Z][a-z]+ [A-Z][a-z]+\b/` matching at the head of the list
(the word-boundary before the head is checked by the caller). -/
def properNounFrom : List Char → Bool
  | [] => false
  | c :: cs =>
    if c.isUpper then
      let r1 := takeLowers cs
      if 0 < r1.1 then
        match r1.2 with
        | ' ' :: d :: rest =>
          if d.isUpper then
            let r2 := takeLowers rest
            if 0 < r2.1 then
              match r2.2 with
              | [] => true
              | e :: _ => !isWordCharJs e
            else false
          else false
        | _ => false
      else false
    else false

/-- Scan all positions for the proper-noun pattern; `prev` is the character
before the current position (for the leading `\b`). -/
def properNounSearchAux : Option Char → List Char → Bool
  | _, [] => false
  | prev, c :: cs =>
    ((match prev with
      | none => true
      | some p => !isWordCharJs p) && properNounFrom (c :: cs))
      || properNounSearchAux (some c) cs

/-- JS `/\b[A-Z][a-z]+ [A-Z][a-z]+\b/.test(s)`. -/
def properNounTest (s : String) : Bool := properNounSearchAux none s.data

/-- JS `/^\s*[-\*\+]/m.test(s)`: some line starts with whitespace then a
bullet character.  `lineWs` records that only whitespace has been seen since
the last line start. -/
def bulletScanAux : Bool → List Char → Bool
  | _, [] => false
  | lineWs, c :: cs =>
    if (c == '-' || c == '*' || c == '+') && lineWs then true
    else if c == '\n' then bulletScanAux true cs
    else if isJsWS c then bulletScanAux lineWs cs
    else bulletScanAux false cs

mutual

/-- JS `/^\s*\d+\./m.test(s)`: some line starts with whitespace, then one or
more digits, then a dot.  `lineWs`: only whitespace since the last line
start; `inDig`: currently inside a digit run that began in such a position. -/
def numScanAux : Bool → List Char → Bool
  | _, [] => false
  | lineWs, c :: cs =>
    if c.isDigit && lineWs then numDigitsAux cs
    else if c == '\n' then numScanAux true cs
    else if isJsWS c then numScanAux lineWs cs
    else numScanAux false cs

/-- Inside a digit run started at a valid position: more digits keep going,
a dot ends the match successfully, anything else resumes the outer scan. -/
def numDigitsAux : List Char → Bool
  | [] => false
  | c :: cs =>
    if c.isDigit then numDigitsAux cs
    else if c == '.' then true
    else if c == '\n' then numScanAux true cs
    else numScanAux false cs

end

/-- JS `/\d+%/.test(s)`: some `%` immediately preceded by a digit. -/
def digitPercentScan : List Char → Bool
  | a :: b :: rest => (a.isDigit && b == '%') || digitPercentScan (b :: rest)
  | _ => false

/-- JS `/\$\d+/.test(s)`: some `$` immediately followed by a digit. -/
def dollarDigitScan : List Char → Bool
  | a :: b :: rest => (a == '$' && b.isDigit) || dollarDigitScan (b :: rest)
  | _ => false

/-- JS `/\d+,\d+/.test(s)`: some `,` with a digit on each side. -/
def digitCommaScan : List Char → Bool
  | a :: b :: c :: rest => (a.isDigit && b == ',' && c.isDigit) || digitCommaScan (b :: c :: rest)
  | _ => false

/-- Lengths of the maximal runs of `\w` characters; `s.match(/\w{10,}/g)`
returns one (greedy, non-overlapping) match per maximal run of length at
least 10, so its count is the number of such runs. -/
def wordRunsAux : Nat → List Char → List Nat
  | cur, [] => if 0 < cur then [cur] else []
  | cur, c :: cs =>
    if isWordCharJs c then wordRunsAux (cur + 1) cs
    else if 0 < cur then cur :: wordRunsAux 0 cs
    else wordRunsAux 0 cs

/-- Number of matches of `/\w{10,}/g` in `s` (JS `(s.match(..) || []).length`). -/
def complexWordCount (s : String) : Nat :=
  ((wordRunsAux 0 s.data).filter (fun n => 10 ≤ n)).length

/-- JS `Math.round(a / b)` for naturals with `b > 0`, modelled exactly:
round half away from zero, which on non-negatives is `⌊(2a + b) / 2b⌋`. -/
def roundDiv (a b : Nat) : Nat := (2 * a + b) / (2 * b)

/-- Fuel-bounded binade search: starting from `e`, doubles the smaller side
until `den ≤ num < 2·den`, accumulating the exponent. -/
def ratFloorLog2Aux : Nat → Nat → Nat → Int → Int
  | 0, _, _, e => e
  | fuel + 1, num, den, e =>
    if num < den then ratFloorLog2Aux fuel (2 * num) den (e - 1)
    else if 2 * den ≤ num then ratFloorLog2Aux fuel num (2 * den) (e + 1)
    else e

/-- The integer `e` with `2^e ≤ num/den < 2^(e+1)`, for positive `num`,
`den`; the fuel `num + den + 4` (far) bounds the number of doublings. -/
def ratFloorLog2 (num den : Nat) : Int :=
  ratFloorLog2Aux (num + den + 4) num den 0

/-- The nearest IEEE binary64 value to `num/den` (round to nearest, ties to
even), returned as a mantissa–exponent pair `(m, p)` whose exact value is
`m · 2^p`.  Assumes `0 < num`, `0 < den` and a result in the normal range,
which holds for every quantity arising in the overall-score computation. -/
def nearestBinary64 (num den : Nat) : Nat × Int :=
  let e := ratFloorLog2 num den
  let s :=
    if 0 ≤ 52 - e then (num * 2 ^ (52 - e).toNat, den)
    else (num, den * 2 ^ (e - 52).toNat)
  let q := s.1 / s.2
  let r := s.1 % s.2
  let m :=
    if 2 * r < s.2 then q
    else if s.2 < 2 * r then q + 1
    else if q % 2 = 0 then q else q + 1
  (m, e - 52)

/-- `Math.round(x)` for a non-negative double `x = m · 2^p`: per ECMA-262 it
is exact on the real value of `x` — the nearest integer, half-ties toward
`+∞`. -/
def jsRoundMantissa (m : Nat) (p : Int) : Nat :=
  if 0 ≤ p then m * 2 ^ p.toNat
  else (2 * m + 2 ^ (-p).toNat) / (2 * 2 ^ (-p).toNat)

/-- `Math.round((totalScore / 1200) * 100)` evaluated as JavaScript does:
the division rounds to the nearest binary64, the multiplication by 100
rounds again, and `Math.round` is applied to the exact value of the result.
This differs from exact rounding of `totalScore/12` only at the totals
174, 342, 678 and 690, where the double computation lands just below the
half-integer. -/
def jsOverallScore (totalScore : Nat) : Nat :=
  if totalScore = 0 then 0
  else
    let d1 := nearestBinary64 totalScore 1200
    let d2 :=
      if 0 ≤ d1.2 then nearestBinary64 (d1.1 * 100 * 2 ^ d1.2.toNat) 1
      else nearestBinary64 (d1.1 * 100) (2 ^ (-d1.2).toNat)
    jsRoundMantissa d2.1 d2.2

/-! ## Data model (`@shared/schema` and the analyzer's result shapes) -/

structure Heading where
  level : Nat
  text : String
  deriving DecidableEq

structure PageImage where
  src : String
  alt : String
  hasAlt : Bool
  deriving DecidableEq

structure PageLink where
  href : String
  text : String
  isInternal : Bool
  deriving DecidableEq

/-- The normalized scrape output, sole input to all scorers. -/
structure WebsiteData where
  title : String
  metaDescription : String
  headings : List Heading
  images : List PageImage
  links : List PageLink
  content : String
  hasSchema : Bool
  schemaTypes : List String
  loadTime : Nat
  wordCount : Nat
  deriving DecidableEq

inductive FindingType
  | success
  | warning
  | error
  deriving DecidableEq

/-- One finding of `analyzeTraditionalSeo` / `analyzeGeo`
(`TraditionalSeoResult` / `GeoResult` in the schema; numeric metric values
are rendered to their decimal strings as JS would display them). -/
structure Finding where
  type : FindingType
  title : String
  description : String
  details : Option String
  metrics : List (String × String)
  deriving DecidableEq

/-- Result of the two rule-based sections: findings plus a 0-100 score. -/
structure ScoreResult where
  results : List Finding
  score : Nat
  deriving DecidableEq

/-! ## `analyzeTraditionalSeo` (seo-analyzer.ts lines 4-158) -/

/-- Title-tag rule: the pushed finding and its score contribution. -/
def traditionalTitleRule (data : WebsiteData) : Finding × Nat :=
  if data.title = "" then
    (⟨FindingType.error, "Missing title tag",
      "The page is missing a title tag, which is crucial for SEO.", none, []⟩, 0)
  else if data.title.length < 30 then
    (⟨FindingType.warning, "Title tag too short",
      "Title tag should be between 30-60 characters for optimal SEO.",
      some ("Current: \"" ++ data.title ++ "\""), []⟩, 10)
  else if 60 < data.title.length then
    (⟨FindingType.warning, "Title tag too long",
      "Title tag may be truncated in search results.",
      some ("Current length: " ++ toString data.title.length ++ " characters"), []⟩, 10)
  else
    (⟨FindingType.success, "Title tag length optimal",
      "Title tag length is within the recommended range.",
      some ("Length: " ++ toString data.title.length ++ " characters"), []⟩, 20)

/-- Meta-description rule. -/
def traditionalMetaRule (data : WebsiteData) : Finding × Nat :=
  if data.metaDescription = "" then
    (⟨FindingType.error, "Missing meta description",
      "Meta description is missing, which affects click-through rates.", none, []⟩, 0)
  else if data.metaDescription.length < 120 then
    (⟨FindingType.warning, "Meta description too short",
      "Meta description should be 120-160 characters for best results.",
      some ("Current length: " ++ toString data.metaDescription.length ++ " characters"), []⟩, 10)
  else if 160 < data.metaDescription.length then
    (⟨FindingType.warning, "Meta description too long",
      "Meta description may be truncated in search results.",
      some ("Current length: " ++ toString data.metaDescription.length ++ " characters"), []⟩, 10)
  else
    (⟨FindingType.success, "Meta description length optimal",
      "Meta description length is within the recommended range.",
      some ("Length: " ++ toString data.metaDescription.length ++ " characters"), []⟩, 20)

/-- Heading-structure (H1) rule. -/
def traditionalH1Rule (data : WebsiteData) : Finding × Nat :=
  let h1Count := (data.headings.filter (fun h => h.level == 1)).length
  if h1Count = 0 then
    (⟨FindingType.error, "Missing H1 tag",
      "Every page should have exactly one H1 tag.", none, []⟩, 0)
  else if 1 < h1Count then
    (⟨FindingType.warning, "Multiple H1 tags found",
      "Use only one H1 per page and structure other headings hierarchically.",
      none, [("H1 tags", toString h1Count)]⟩, 10)
  else
    (⟨FindingType.success, "Proper H1 structure",
      "Page has exactly one H1 tag.", none, []⟩, 15)

/-- Image-optimization rule; emits no finding when there are no images. -/
def traditionalImagesRule (data : WebsiteData) : List Finding × Nat :=
  let imagesWithoutAlt := (data.images.filter (fun img => !img.hasAlt)).length
  if 0 < imagesWithoutAlt then
    ([⟨FindingType.error, "Missing alt text on images",
       toString imagesWithoutAlt ++
         " images found without alt attributes, affecting accessibility and SEO.",
       none,
       [("Total images", toString data.images.length),
        ("Missing alt", toString imagesWithoutAlt)]⟩], 0)
  else if 0 < data.images.length then
    ([⟨FindingType.success, "All images have alt text",
       "Great job! All images have descriptive alt attributes.",
       none, [("Total images", toString data.images.length)]⟩], 15)
  else ([], 0)

/-- Schema-markup rule. -/
def traditionalSchemaRule (data : WebsiteData) : Finding × Nat :=
  if !data.hasSchema then
    (⟨FindingType.warning, "No schema markup found",
      "Consider adding structured data to help search engines understand your content.",
      none, []⟩, 0)
  else
    (⟨FindingType.success, "Schema markup present",
      "Structured data found on the page.",
      some ("Types: " ++ String.intercalate (", ") data.schemaTypes), []⟩, 15)

/-- Page-speed rule. -/
def traditionalLoadRule (data : WebsiteData) : Finding × Nat :=
  if 3000 < data.loadTime then
    (⟨FindingType.warning, "Slow page load time",
      "Page took longer than 3 seconds to load, which may affect user experience.",
      none, [("Load time", toString data.loadTime ++ "ms")]⟩, 0)
  else
    (⟨FindingType.success, "Good page load time",
      "Page loads within acceptable time limits.",
      none, [("Load time", toString data.loadTime ++ "ms")]⟩, 15)

/-- The additive sum of all rule contributions, before the final clamp. -/
def traditionalSeoRawScore (data : WebsiteData) : Nat :=
  (traditionalTitleRule data).2 + (traditionalMetaRule data).2 +
    (traditionalH1Rule data).2 + (traditionalImagesRule data).2 +
    (traditionalSchemaRule data).2 + (traditionalLoadRule data).2

/-- `analyzeTraditionalSeo`: findings pushed in rule order, score clamped
with `Math.min(score, 100)`. -/
def analyzeTraditionalSeo (data : WebsiteData) : ScoreResult :=
  { results :=
      [(traditionalTitleRule data).1, (traditionalMetaRule data).1,
       (traditionalH1Rule data).1] ++
      (traditionalImagesRule data).1 ++
      [(traditionalSchemaRule data).1, (traditionalLoadRule data).1],
    score := min (traditionalSeoRawScore data) 100 }

/-! ## `analyzeGeo` (seo-analyzer.ts lines 160-257) -/

def geoH2SuccessFinding : Finding :=
  ⟨FindingType.success, "Content structured with H2 headings",
   "Good use of heading structure that AI engines can easily parse and understand.", none, []⟩

def geoH2WarnFinding : Finding :=
  ⟨FindingType.warning, "Poor heading structure for AI",
   "Add H2 and H3 headings to improve AI readability and content parsing.", none, []⟩

def geoTldrErrorFinding : Finding :=
  ⟨FindingType.error, "No TL;DR summary found",
   "AI tools prefer concise summaries. Add a TL;DR section to improve AI-driven content discovery.",
   none, []⟩

def geoTldrSuccessFinding : Finding :=
  ⟨FindingType.success, "Summary content present",
   "Content includes summary sections that AI tools can easily extract.", none, []⟩

def geoQaWarnFinding : Finding :=
  ⟨FindingType.warning, "Limited question-answer format",
   "Content doesn't directly answer user intent queries. Consider restructuring with Q&A sections.",
   none, []⟩

def geoQaSuccessFinding : Finding :=
  ⟨FindingType.success, "Question-answer format detected",
   "Content addresses user questions directly, improving AI platform visibility.", none, []⟩

def geoSchemaErrorFinding : Finding :=
  ⟨FindingType.error, "Missing schema markup",
   "No structured data found. Schema markup helps AI engines understand your content context.",
   none, []⟩

def geoSchemaSuccessFinding : Finding :=
  ⟨FindingType.success, "Schema markup enhances AI understanding",
   "Structured data helps AI platforms understand content relationships and context.", none, []⟩

def geoEntitySuccessFinding : Finding :=
  ⟨FindingType.success, "Good entity and semantic clarity",
   "Content includes specific entities, dates, and proper nouns that improve AI understanding.",
   none, []⟩

def geoEntityWarnFinding : Finding :=
  ⟨FindingType.warning, "Moderate entity and semantic clarity",
   "Consider adding more specific dates, locations, and definitions to improve AI understanding.",
   none, []⟩

/-- `hasH2Structure` check of the first GEO rule. -/
def geoHasH2 (data : WebsiteData) : Bool := data.headings.any (fun h => h.level == 2)

/-- `hasTldr` check of the second GEO rule. -/
def geoHasTldr (data : WebsiteData) : Bool :=
  strIncludes (strToLower data.content) ("tl;dr") ||
    strIncludes (strToLower data.content) ("summary") ||
    strIncludes (strToLower data.content) ("key takeaways")

/-- `hasQAFormat` check of the third GEO rule. -/
def geoHasQa (data : WebsiteData) : Bool :=
  strIncludes (strToLower data.content) ("what is") ||
    strIncludes (strToLower data.content) ("how to") ||
    strIncludes (strToLower data.content) ("why") ||
    data.headings.any (fun h => strIncludes (strToLower h.text) ("?"))

/-- `hasEntities` check of the fifth GEO rule (note: on the raw, un-lowercased
content, as in the source). -/
def geoHasEntities (data : WebsiteData) : Bool :=
  strIncludes data.content ("2024") || strIncludes data.content ("2023") ||
    properNounTest data.content

def geoH2Rule (data : WebsiteData) : Finding × Nat :=
  if geoHasH2 data then (geoH2SuccessFinding, 20) else (geoH2WarnFinding, 0)

def geoTldrRule (data : WebsiteData) : Finding × Nat :=
  if !geoHasTldr data then (geoTldrErrorFinding, 0) else (geoTldrSuccessFinding, 25)

def geoQaRule (data : WebsiteData) : Finding × Nat :=
  if !geoHasQa data then (geoQaWarnFinding, 0) else (geoQaSuccessFinding, 20)

def geoSchemaRule (data : WebsiteData) : Finding × Nat :=
  if !data.hasSchema then (geoSchemaErrorFinding, 0) else (geoSchemaSuccessFinding, 20)

def geoEntityRule (data : WebsiteData) : Finding × Nat :=
  if geoHasEntities data then (geoEntitySuccessFinding, 15) else (geoEntityWarnFinding, 0)

/-- The additive sum of the five GEO rule contributions, before the clamp. -/
def geoRawScore (data : WebsiteData) : Nat :=
  (geoH2Rule data).2 + (geoTldrRule data).2 + (geoQaRule data).2 +
    (geoSchemaRule data).2 + (geoEntityRule data).2

/-- `analyzeGeo`: one finding per rule in source order, score clamped. -/
def analyzeGeo (data : WebsiteData) : ScoreResult :=
  { results :=
      [(geoH2Rule data).1, (geoTldrRule data).1, (geoQaRule data).1,
       (geoSchemaRule data).1, (geoEntityRule data).1],
    score := min (geoRawScore data) 100 }

/-! ## `generateContentSuggestions` and `generateAiImprovements`
(seo-analyzer.ts lines 259-437) -/

structure BlogTitle where
  title : String
  target : String
  deriving DecidableEq

structure FaqEntry where
  question : String
  answer : String
  deriving DecidableEq

/-- The per-platform visibility labels (`low`/`medium`/`high` strings). -/
structure AiVisibilityLabels where
  chatgpt : String
  perplexity : String
  claude : String
  bard : String
  deriving DecidableEq

structure AiImprovement where
  action : String
  description : String
  impact : String
  priority : Nat
  deriving DecidableEq

structure ContentSuggestions where
  missingKeywords : List String
  blogTitles : List BlogTitle
  contentStructure : List String
  faqs : List FaqEntry
  aiVisibility : AiVisibilityLabels
  aiImprovements : List AiImprovement
  deriving DecidableEq

def impTldr : AiImprovement :=
  ⟨"Add TL;DR Summary Section",
   "AI tools ke liye page ke top par 2-3 lines ka summary add kariye jo main points cover kare",
   "high", 1⟩

def impFaqSchema : AiImprovement :=
  ⟨"Create FAQ Schema Markup",
   "Common questions aur unke answers ko structured data format mein add kariye taaki AI easily samjh sake",
   "high", 2⟩

def impHeadings : AiImprovement :=
  ⟨"Improve Content Structure with Clear Headings",
   "H2/H3 headings use kariye jo direct questions answer karte hain (What is, How to, Why)",
   "high", 3⟩

def impPeopleAlsoAsk : AiImprovement :=
  ⟨"Add \"People Also Ask\" Section",
   "Related questions aur unke short answers add kariye jo users commonly puchte hain",
   "medium", 4⟩

def impDatesStats : AiImprovement :=
  ⟨"Include Specific Dates and Statistics",
   "Current year, numbers, aur specific data points add kariye jo AI tools reference kar sakein",
   "medium", 5⟩

def impVoiceSearch : AiImprovement :=
  ⟨"Optimize for Voice Search Queries",
   "Natural language phrases add kariye jo log voice assistants se puchte hain",
   "medium", 6⟩

def impComparisonTables : AiImprovement :=
  ⟨"Add Comparison Tables",
   "Options, features ya alternatives ko table format mein present kariye",
   "medium", 7⟩

def impAuthoritativeLinks : AiImprovement :=
  ⟨"Link to Authoritative Sources",
   "Wikipedia, government sites, aur trusted sources ko reference kariye credibility ke liye",
   "low", 8⟩

def impStepByStep : AiImprovement :=
  ⟨"Add Step-by-Step Instructions",
   "Process-based content ko numbered lists mein convert kariye",
   "low", 9⟩

def impArticleSchema : AiImprovement :=
  ⟨"Implement Article Schema",
   "Publisher, author, aur publication date ka structured data add kariye",
   "low", 10⟩

/-- `generateAiImprovements(data, currentScore)`: four threshold-gated tiers
accumulated in order, then `slice(0, 6)`.  `data` is unused by the source
body but kept in the signature. -/
def generateAiImprovements (_data : WebsiteData) (currentScore : Int) : List AiImprovement :=
  ((if currentScore < 50 then [impTldr, impFaqSchema] else []) ++
   (if currentScore < 75 then [impHeadings, impPeopleAlsoAsk, impDatesStats] else []) ++
   (if currentScore < 85 then [impVoiceSearch, impComparisonTables] else []) ++
   (if 85 ≤ currentScore then [impAuthoritativeLinks, impStepByStep, impArticleSchema] else [])).take 6

/-- `generateContentSuggestions(data, aiScore)`: all fields except
`aiImprovements` are fixed templates. -/
def generateContentSuggestions (data : WebsiteData) (aiScore : Int) : ContentSuggestions :=
  { missingKeywords :=
      ["SEO optimization", "website performance", "search engine ranking",
       "content marketing", "digital marketing"],
    blogTitles :=
      [⟨"How to Improve Your Page Speed for Better Rankings in 2024",
        "page speed optimization, Core Web Vitals"⟩,
       ⟨"The Complete Guide to AI-Friendly Content Creation",
        "AI optimization, content structure"⟩,
       ⟨"SEO vs GEO: What's the Difference and Why It Matters",
        "generative engine optimization, SEO comparison"⟩,
       ⟨"Schema Markup: The Secret to Better AI Visibility",
        "structured data, schema implementation"⟩],
    contentStructure :=
      ["## What is SEO Optimization?",
       "### Definition and Core Principles",
       "### Why SEO Matters in 2024",
       "## Traditional SEO vs. AI Optimization",
       "### Search Engine Optimization Basics",
       "### Generative Engine Optimization (GEO)",
       "## Step-by-Step Implementation Guide",
       "### Technical SEO Checklist",
       "### Content Optimization Strategies",
       "## Measuring Success",
       "### Key Performance Indicators",
       "### Tools and Analytics"],
    faqs :=
      [⟨"What is a good page speed score?",
        "A good page speed score is above 90 for mobile and desktop. Core Web Vitals should meet Google's thresholds: LCP under 2.5s, FID under 100ms, and CLS under 0.1."⟩,
       ⟨"How can I optimize images without losing quality?",
        "Use modern formats like WebP or AVIF, implement lazy loading, compress images to 80-85% quality, and serve responsive images using srcset attributes."⟩,
       ⟨"What's the difference between SEO and GEO?",
        "SEO optimizes for search engines like Google, while GEO (Generative Engine Optimization) optimizes for AI platforms like ChatGPT and Perplexity that generate direct answers."⟩,
       ⟨"How important is schema markup for AI visibility?",
        "Schema markup is crucial for AI platforms to understand your content context, entity relationships, and factual information, significantly improving visibility in AI-generated responses."⟩],
    aiVisibility := ⟨"medium", "low", "medium", "low"⟩,
    aiImprovements := generateAiImprovements data aiScore }

/-! ## The 12 factor heuristics (seo-analyzer.ts lines 592-853)

`assessFreshness` calls `new Date().getFullYear()`; that environment read is
modelled as the explicit `currentYear` argument, threaded through
`analyzeAiPlatformVisibility`.  All other heuristics read only `data`. -/

def assessCrawlability (data : WebsiteData) : Nat :=
  let score :=
    if strIncludes (strToLower data.content) ("login") ||
        strIncludes (strToLower data.content) ("sign in") then 80 - 20
    else 80
  max 0 score

def assessHtmlStructure (data : WebsiteData) : Nat :=
  let h1Count := (data.headings.filter (fun h => h.level == 1)).length
  let s1 := if h1Count = 1 then 25 else if h1Count = 0 then 0 else 10
  let s2 := if data.headings.any (fun h => h.level == 2) then 25 else 0
  let s3 := if data.headings.any (fun h => h.level == 3) then 15 else 0
  let s4 := if data.title ≠ "" ∧ 10 < data.title.length then 20 else 0
  let s5 := if data.metaDescription ≠ "" ∧ 50 < data.metaDescription.length then 15 else 0
  min 100 (s1 + s2 + s3 + s4 + s5)

def assessContentClarity (data : WebsiteData) : Nat :=
  let content := strToLower data.content
  let s1 :=
    if strIncludes content ("what is") || strIncludes content ("introduction") ||
        strIncludes content ("overview") then 25 else 0
  let s2 :=
    if strIncludes content ("how to") || strIncludes content ("why") ||
        strIncludes content ("when") then 25 else 0
  let s3 :=
    if strIncludes content ("definition") || strIncludes content ("means") ||
        strIncludes content ("refers to") then 20 else 0
  let s4 :=
    if 300 < data.wordCount ∧ data.wordCount < 3000 then 30
    else if 3000 ≤ data.wordCount then 15 else 0
  min 100 (s1 + s2 + s3 + s4)

def assessScanability (data : WebsiteData) : Nat :=
  let paragraphs := (splitNN [] data.content.data).filter (fun p => 50 < (trimJs p).length)
  let pScore :=
    -- JS computes sum/length; with no paragraphs that is NaN, both `<`
    -- comparisons are false, and the final else branch (+10) is taken.
    if paragraphs.length = 0 then 10
    else
      let total := (paragraphs.map List.length).sum
      if total < 300 * paragraphs.length then 40
      else if total < 500 * paragraphs.length then 25
      else 10
  let s2 :=
    if strIncludes data.content ("•") || strIncludes data.content ("*") ||
        strIncludes data.content ("1.") || strIncludes data.content ("-") then 30 else 0
  let s3 := if 3 < data.headings.length then 30 else 0
  min 100 (pScore + s2 + s3)

def assessSummarySections (data : WebsiteData) : Nat :=
  let content := strToLower data.content
  let s1 := if strIncludes content ("tl;dr") || strIncludes content ("tldr") then 40 else 0
  let s2 :=
    if strIncludes content ("summary") || strIncludes content ("key points") ||
        strIncludes content ("takeaways") then 30 else 0
  let s3 := if strIncludes content ("conclusion") || strIncludes content ("to summarize") then 30 else 0
  min 100 (s1 + s2 + s3)

def assessQaFormat (data : WebsiteData) : Nat :=
  let content := strToLower data.content
  let s1 :=
    if strIncludes content ("q:") || strIncludes content ("question:") ||
        strIncludes content ("faq") then 40 else 0
  let s2 := if strIncludes content ("a:") || strIncludes content ("answer:") then 30 else 0
  let questionHeadings := data.headings.filter (fun h =>
    strIncludes (strToLower h.text) ("?") ||
      strStartsWith (strToLower h.text) ("how ") ||
      strStartsWith (strToLower h.text) ("what ") ||
      strStartsWith (strToLower h.text) ("why "))
  let s3 := if 0 < questionHeadings.length then 30 else 0
  min 100 (s1 + s2 + s3)

def assessSchemaMarkup (data : WebsiteData) : Nat :=
  let score :=
    if data.hasSchema then
      50 + (if data.schemaTypes.contains ("FAQPage") then 20 else 0) +
        (if data.schemaTypes.contains ("Article") then 15 else 0) +
        (if data.schemaTypes.contains ("HowTo") then 15 else 0)
    else 0
  min 100 score

def assessTrustedEntities (data : WebsiteData) : Nat :=
  let content := strToLower data.content
  let s1 :=
    if strIncludes content ("wikipedia") || strIncludes content (".gov") ||
        strIncludes content (".edu") then 30 else 0
  let s2 :=
    if strIncludes content ("research") || strIncludes content ("study") ||
        strIncludes content ("university") then 25 else 0
  let externalLinks := data.links.filter (fun l => !l.isInternal)
  let s3 := if 2 < externalLinks.length then 25 else 0
  let s4 := if 5 < externalLinks.length then 20 else 0
  min 100 (s1 + s2 + s3 + s4)

def assessDataFormats (data : WebsiteData) : Nat :=
  let s1 :=
    if strIncludes data.content ("•") || strIncludes data.content ("*") ||
        bulletScanAux true data.content.data then 30 else 0
  let s2 := if numScanAux true data.content.data then 25 else 0
  let s3 :=
    if digitPercentScan data.content.data || dollarDigitScan data.content.data ||
        digitCommaScan data.content.data then 25 else 0
  min 100 (s1 + s2 + s3 + 20)

def assessReadability (data : WebsiteData) : Nat :=
  -- JS: wordCount / content.split('.').length, compared to 15 and 20;
  -- split('.').length is (number of dots) + 1, always positive, and the
  -- average comparisons are modelled exactly by cross-multiplication.
  let sentences := data.content.data.count ('.') + 1
  let s1 :=
    if data.wordCount < 15 * sentences then 25
    else if data.wordCount < 20 * sentences then 15
    else 5
  -- JS: complexWords.length / wordCount < 0.05 (resp. 0.1); with
  -- wordCount = 0 the ratio is NaN or Infinity and both tests are false.
  let s2 :=
    if data.wordCount = 0 then 0
    else if 20 * complexWordCount data.content < data.wordCount then 15
    else if 10 * complexWordCount data.content < data.wordCount then 10
    else 0
  min 100 (60 + s1 + s2)

def assessFreshness (currentYear : Nat) (data : WebsiteData) : Nat :=
  let content := strToLower data.content
  let s1 := if strIncludes content (toString currentYear) then 40 else 0
  let s2 := if strIncludes content (toString (currentYear - 1)) then 20 else 0
  let s3 :=
    if strIncludes content ("updated") || strIncludes content ("revised") ||
        strIncludes content ("latest") then 30 else 0
  let s4 := if strIncludes content ("2024") || strIncludes content ("2025") then 30 else 0
  min 100 (s1 + s2 + s3 + s4)

def assessCredibility (data : WebsiteData) : Nat :=
  let content := strToLower data.content
  let s1 :=
    if strIncludes content ("author") || strIncludes content ("written by") ||
        strIncludes content ("by:") then 25 else 0
  let s2 :=
    if strIncludes content ("contact") || strIncludes content ("about us") ||
        strIncludes content ("team") then 20 else 0
  let s3 :=
    if strIncludes content ("expert") || strIncludes content ("certified") ||
        strIncludes content ("professional") then 15 else 0
  min 100 (40 + s1 + s2 + s3)

/-! ## `analyzeAiPlatformVisibility` (seo-analyzer.ts lines 439-590)
and its recommendations (lines 855-925) -/

inductive FactorStatus
  | pass
  | warning
  | fail
  deriving DecidableEq

structure AiFactor where
  factor : String
  score : Nat
  description : String
  status : FactorStatus
  deriving DecidableEq

structure AiRecommendation where
  priority : String
  action : String
  description : String
  impact : String
  deriving DecidableEq

structure AiVisibilityReport where
  overallScore : Nat
  summary : String
  factors : List AiFactor
  recommendations : List AiRecommendation
  deriving DecidableEq

/-- The status ternary repeated at each factor in the source:
`score >= 80 ? 'pass' : score >= 50 ? 'warning' : 'fail'`. -/
def statusOf (score : Nat) : FactorStatus :=
  if 80 ≤ score then FactorStatus.pass
  else if 50 ≤ score then FactorStatus.warning
  else FactorStatus.fail

def recTldrSummary : AiRecommendation :=
  ⟨"high", "Add TL;DR Summary Section",
   "Page ke top या bottom में 2-3 sentences का clear summary add करें जो main points cover करे",
   "AI tools आपका content easily समझ और summarize कर पाएंगे"⟩

def recFaqSection : AiRecommendation :=
  ⟨"high", "Create FAQ Section",
   "Common questions और उनके direct answers add करें structured format में",
   "ChatGPT और Perplexity में better visibility मिलेगी"⟩

def recStructuredData : AiRecommendation :=
  ⟨"high", "Implement Structured Data",
   "FAQPage, Article, या HowTo schema markup add करें",
   "AI platforms को content का context better समझ आएगा"⟩

def recHeadingStructure : AiRecommendation :=
  ⟨"medium", "Improve Heading Structure",
   "Single H1 use करें और proper H2/H3 hierarchy बनाएं",
   "Content का logical flow AI को better समझ आएगा"⟩

def recShortParagraphs : AiRecommendation :=
  ⟨"medium", "Break Content into Short Paragraphs",
   "Long paragraphs को छोटे में divide करें और bullet points use करें",
   "AI tools content को easily scan और extract कर पाएंगे"⟩

def recCurrentYear : AiRecommendation :=
  ⟨"medium", "Add Current Year References",
   "2025 और recent data points include करें content freshness के लिए",
   "AI platforms fresh और relevant content को prefer करते हैं"⟩

/-- The first `forEach` of `generateAiVisibilityRecommendations`: a failing
factor pushes a recommendation only when its name hits one of the three
`switch` cases; every other failing factor pushes nothing. -/
def failRecOf (f : AiFactor) : List AiRecommendation :=
  if f.status = FactorStatus.fail then
    if f.factor = "TL;DR & Summary" then [recTldrSummary]
    else if f.factor = "Q&A Format" then [recFaqSection]
    else if f.factor = "Schema Markup" then [recStructuredData]
    else []
  else []

/-- The second `forEach`: warnings, with only two `switch` cases. -/
def warnRecOf (f : AiFactor) : List AiRecommendation :=
  if f.status = FactorStatus.warning then
    if f.factor = "HTML Structure" then [recHeadingStructure]
    else if f.factor = "Content Scannability" then [recShortParagraphs]
    else []
  else []

def generateAiVisibilityRecommendations (factors : List AiFactor)
    (overallScore : Nat) : List AiRecommendation :=
  ((factors.flatMap failRecOf) ++ (factors.flatMap warnRecOf) ++
    (if overallScore < 70 then [recCurrentYear] else [])).take 8

/-- The body of `analyzeAiPlatformVisibility` as a function of the twelve
factor scores (the source computes each score into a local constant and
then builds the report from those constants; this definition is that
construction, with the constants as parameters). -/
def aiVisibilityCore (crawlabilityScore structureScore clarityScore
    scannabilityScore summaryScore qaScore schemaScore entityScore dataScore
    readabilityScore freshnessScore credibilityScore : Nat) : AiVisibilityReport :=
  let factors : List AiFactor :=
    [⟨"Public Crawlability", crawlabilityScore,
      "Page accessibility for AI crawlers without login walls or blocking",
      statusOf crawlabilityScore⟩,
     ⟨"HTML Structure", structureScore,
      "Clean semantic HTML with proper heading hierarchy", statusOf structureScore⟩,
     ⟨"Content Clarity", clarityScore,
      "Clear introduction, topic definition, and direct question answers",
      statusOf clarityScore⟩,
     ⟨"Content Scannability", scannabilityScore,
      "Short paragraphs and easy-to-summarize content structure",
      statusOf scannabilityScore⟩,
     ⟨"TL;DR & Summary", summaryScore,
      "Quick summary sections at top or bottom of content", statusOf summaryScore⟩,
     ⟨"Q&A Format", qaScore,
      "Structured question-answer blocks that AI can easily extract", statusOf qaScore⟩,
     ⟨"Schema Markup", schemaScore,
      "FAQPage, HowTo, Article, and other relevant structured data", statusOf schemaScore⟩,
     ⟨"Trusted Entities", entityScore,
      "References to organizations, authority sources, and credible links",
      statusOf entityScore⟩,
     ⟨"Data Extraction", dataScore,
      "Bullet lists, tables, statistics, and structured information", statusOf dataScore⟩,
     ⟨"Readability Level", readabilityScore,
      "8th-grade reading level, minimal jargon and marketing fluff",
      statusOf readabilityScore⟩,
     ⟨"Content Freshness", freshnessScore,
      "Updated dates, current year references, and freshness indicators",
      statusOf freshnessScore⟩,
     ⟨"Credibility Markers", credibilityScore,
      "Author information, contact details, and about us content",
      statusOf credibilityScore⟩]
  let totalScore :=
    crawlabilityScore + structureScore + clarityScore + scannabilityScore +
      summaryScore + qaScore + schemaScore + entityScore + dataScore +
      readabilityScore + freshnessScore + credibilityScore
  let overallScore := jsOverallScore totalScore
  let failingFactors := (factors.filter (fun f => f.status == FactorStatus.fail)).length
  let warningFactors := (factors.filter (fun f => f.status == FactorStatus.warning)).length
  let summary :=
    if 80 ≤ overallScore then
      "Excellent AI platform visibility with strong optimization across most factors"
    else if 60 ≤ overallScore then
      "Good AI visibility with " ++ toString (failingFactors + warningFactors) ++
        " areas needing improvement"
    else if 40 ≤ overallScore then
      "Moderate AI visibility. " ++ toString failingFactors ++ " critical issues and " ++
        toString warningFactors ++ " warnings to address"
    else
      "Poor AI platform visibility. Significant optimization needed across " ++
        toString failingFactors ++ " critical areas"
  { overallScore := overallScore,
    summary := summary,
    factors := factors,
    recommendations := generateAiVisibilityRecommendations factors overallScore }

def analyzeAiPlatformVisibility (currentYear : Nat) (data : WebsiteData) :
    AiVisibilityReport :=
  aiVisibilityCore (assessCrawlability data) (assessHtmlStructure data)
    (assessContentClarity data) (assessScanability data)
    (assessSummarySections data) (assessQaFormat data) (assessSchemaMarkup data)
    (assessTrustedEntities data) (assessDataFormats data)
    (assessReadability data) (assessFreshness currentYear data)
    (assessCredibility data)

/-! ## `compareWebsites`, both source variants (lines 927-1011 and 1451-1518) -/

inductive DiffCategory
  | seo
  | ai
  | visibility
  deriving DecidableEq

structure KeyDifference where
  category : DiffCategory
  aspect : String
  url1Value : String
  url2Value : String
  recommendation : String
  deriving DecidableEq

/-- The two score fields of a stored report that the comparison reads. -/
structure ScoreReport where
  seoScore : Int
  aiScore : Int
  deriving DecidableEq

structure ComparisonResult where
  seoScoreDiff : Int
  aiScoreDiff : Int
  aiVisibilityDiff : Int
  betterPerformer : String
  keyDifferences : List KeyDifference
  deriving DecidableEq

structure ComparisonResultNoVis where
  seoScoreDiff : Int
  aiScoreDiff : Int
  betterPerformer : String
  keyDifferences : List KeyDifference
  deriving DecidableEq

def cmpSeoTitleEntry (data1 data2 : WebsiteData) (seoScoreDiff : Int) : KeyDifference :=
  ⟨DiffCategory.seo, "Title Tag Optimization",
   toString data1.title.length ++ " characters",
   toString data2.title.length ++ " characters",
   if 0 < seoScoreDiff then "URL2 has better title length (50-60 chars ideal)"
   else "URL1 has better title length optimization"⟩

def cmpSeoMetaEntry (data1 data2 : WebsiteData) : KeyDifference :=
  ⟨DiffCategory.seo, "Meta Description",
   (if data1.metaDescription ≠ "" then
      toString data1.metaDescription.length ++ " chars" else "Missing"),
   (if data2.metaDescription ≠ "" then
      toString data2.metaDescription.length ++ " chars" else "Missing"),
   "Meta description should be 150-160 characters for best results"⟩

/-- Renders `factor.score/100` for the named factor, or `Not assessed`. -/
def cmpFactorValue (v : AiVisibilityReport) (name : String) : String :=
  match v.factors.find? (fun f => f.factor = name) with
  | some f => toString f.score ++ "/100"
  | none => "Not assessed"

def cmpVisSummaryEntry (v1 v2 : AiVisibilityReport) : KeyDifference :=
  ⟨DiffCategory.visibility, "AI Platform Summary",
   cmpFactorValue v1 ("TL;DR & Summary"), cmpFactorValue v2 ("TL;DR & Summary"),
   "Add TL;DR sections और clear summaries for better AI visibility"⟩

def cmpVisSchemaEntry (v1 v2 : AiVisibilityReport) : KeyDifference :=
  ⟨DiffCategory.visibility, "Structured Data Implementation",
   cmpFactorValue v1 ("Schema Markup"), cmpFactorValue v2 ("Schema Markup"),
   "Implement FAQPage और Article schema markup for AI platforms"⟩

def cmpAiStructureEntry (data1 data2 : WebsiteData) : KeyDifference :=
  ⟨DiffCategory.ai, "Content Structure",
   (if data1.headings.any (fun h => h.level == 2) then "Has H2 structure"
    else "Poor heading structure"),
   (if data2.headings.any (fun h => h.level == 2) then "Has H2 structure"
    else "Poor heading structure"),
   "Use H2/H3 headings for better AI content parsing"⟩

def cmpAiTldrEntry (data1 data2 : WebsiteData) : KeyDifference :=
  ⟨DiffCategory.ai, "TL;DR Summary",
   (if strIncludes (strToLower data1.content) ("tl;dr") then "Present" else "Missing"),
   (if strIncludes (strToLower data2.content) ("tl;dr") then "Present" else "Missing"),
   "Add TL;DR section for better AI tool visibility"⟩

def cmpAiSchemaEntry (data1 data2 : WebsiteData) : KeyDifference :=
  ⟨DiffCategory.ai, "Schema Markup",
   (if data1.hasSchema then toString data1.schemaTypes.length ++ " types" else "None"),
   (if data2.hasSchema then toString data2.schemaTypes.length ++ " types" else "None"),
   "Implement FAQ and Article schema for AI platforms"⟩

/-- The richer variant: AI-visibility reports supplied. -/
def compareWebsites (data1 : WebsiteData) (report1 : ScoreReport)
    (data2 : WebsiteData) (report2 : ScoreReport)
    (aiVisibility1 aiVisibility2 : AiVisibilityReport) : ComparisonResult :=
  let seoScoreDiff := report2.seoScore - report1.seoScore
  let aiScoreDiff := report2.aiScore - report1.aiScore
  let aiVisibilityDiff :=
    (aiVisibility2.overallScore : Int) - (aiVisibility1.overallScore : Int)
  let betterPerformer :=
    if 0 < seoScoreDiff + aiScoreDiff + aiVisibilityDiff then "url2" else "url1"
  let keyDifferences :=
    (if 10 < seoScoreDiff.natAbs then
      [cmpSeoTitleEntry data1 data2 seoScoreDiff, cmpSeoMetaEntry data1 data2]
     else []) ++
    (if 15 < aiVisibilityDiff.natAbs then
      [cmpVisSummaryEntry aiVisibility1 aiVisibility2,
       cmpVisSchemaEntry aiVisibility1 aiVisibility2]
     else []) ++
    (if 10 < aiScoreDiff.natAbs then
      [cmpAiStructureEntry data1 data2, cmpAiSchemaEntry data1 data2]
     else [])
  ⟨seoScoreDiff, aiScoreDiff, aiVisibilityDiff, betterPerformer, keyDifferences⟩

/-- The earlier variant without AI-visibility reports (second module copy). -/
def compareWebsitesNoVis (data1 : WebsiteData) (report1 : ScoreReport)
    (data2 : WebsiteData) (report2 : ScoreReport) : ComparisonResultNoVis :=
  let seoScoreDiff := report2.seoScore - report1.seoScore
  let aiScoreDiff := report2.aiScore - report1.aiScore
  let betterPerformer := if 0 < seoScoreDiff + aiScoreDiff then "url2" else "url1"
  let keyDifferences :=
    (if 10 < seoScoreDiff.natAbs then
      [cmpSeoTitleEntry data1 data2 seoScoreDiff, cmpSeoMetaEntry data1 data2]
     else []) ++
    (if 10 < aiScoreDiff.natAbs then
      [cmpAiStructureEntry data1 data2, cmpAiTldrEntry data1 data2,
       cmpAiSchemaEntry data1 data2]
     else [])
  ⟨seoScoreDiff, aiScoreDiff, betterPerformer, keyDifferences⟩

/-! ## Spec-level reformulation of the recommendation generator -/

/-- The fixed high-priority remediation for a failing factor name; only the
three names appearing in the fail `switch` are mapped. -/
def failRemediationFor (name : String) : Option AiRecommendation :=
  if name = "TL;DR & Summary" then some recTldrSummary
  else if name = "Q&A Format" then some recFaqSection
  else if name = "Schema Markup" then some recStructuredData
  else none

/-- The fixed medium-priority remediation for a warning factor name; only
the two names appearing in the warning `switch` are mapped. -/
def warnRemediationFor (name : String) : Option AiRecommendation :=
  if name = "HTML Structure" then some recHeadingStructure
  else if name = "Content Scannability" then some recShortParagraphs
  else none

/-- Declarative restatement of the recommendation pipeline, used to compare
against the source embedding: remediations of the failing factors that have
one, in factor order, then those of the warning factors, then the generic
freshness recommendation when the overall score is below 70, capped at 8. -/
def aiVisibilityRecsSpec (factors : List AiFactor) (overallScore : Nat) :
    List AiRecommendation :=
  (((factors.filter (fun f => f.status == FactorStatus.fail)).filterMap
      (fun f => failRemediationFor f.factor)) ++
   ((factors.filter (fun f => f.status == FactorStatus.warning)).filterMap
      (fun f => warnRemediationFor f.factor)) ++
   (if overallScore < 70 then [recCurrentYear] else [])).take 8

/-! ## Concrete inputs used by witnesses and counterexamples -/

/-- The all-empty scrape record. -/
def sampleAllEmpty : WebsiteData := ⟨"", "", [], [], [], "", false, [], 0, 0⟩

/-- Empty page except a 5000 ms load time (the end-to-end example input). -/
def samplePoorPage : WebsiteData := ⟨"", "", [], [], [], "", false, [], 5000, 0⟩

/-- Empty page whose content is the string `2026`. -/
def sampleYearPage : WebsiteData := ⟨"", "", [], [], [], "2026", false, [], 0, 0⟩

/-- Page whose title has exactly 30 characters and whose meta description
has exactly 119 characters. -/
def sampleBoundaryPage : WebsiteData :=
  ⟨String.mk (List.replicate 30 'x'), String.mk (List.replicate 119 'y'),
   [], [], [], "", false, [], 0, 0⟩

/-- A minimal AI-visibility report used to instantiate the comparison. -/
def sampleVisReport : AiVisibilityReport := ⟨50, "n/a", [], []⟩

/-- A page whose twelve factor scores sum to exactly 690 (verified in the
counterexample below): title of 20 characters, meta description of 60,
headings H1-H4, and a short digit-free content hitting the clarity, summary
and Q&A substring heuristics. -/
def sampleRound690Page : WebsiteData :=
  ⟨String.mk (List.replicate 20 'x'), String.mk (List.replicate 60 'y'),
   [⟨1, "Intro"⟩, ⟨2, "Parts"⟩, ⟨3, "Extras"⟩, ⟨4, "Notes"⟩],
   [], [],
   "tl;dr key points conclusion what is why definition faq answer: e-g okay.",
   false, [], 0, 420⟩

def sampleReport1 : ScoreReport := ⟨70, 40⟩

def sampleReport2 : ScoreReport := ⟨85, 55⟩

/-! ## Helper lemmas -/

lemma traditionalTitleRule_le (data : WebsiteData) : (traditionalTitleRule data).2 ≤ 20 := by
  unfold traditionalTitleRule
  repeat' split
  all_goals simp

lemma traditionalMetaRule_le (data : WebsiteData) : (traditionalMetaRule data).2 ≤ 20 := by
  unfold traditionalMetaRule
  repeat' split
  all_goals simp

lemma traditionalH1Rule_le (data : WebsiteData) : (traditionalH1Rule data).2 ≤ 15 := by
  unfold traditionalH1Rule
  dsimp only
  repeat' split
  all_goals simp

lemma traditionalImagesRule_le (data : WebsiteData) : (traditionalImagesRule data).2 ≤ 15 := by
  unfold traditionalImagesRule
  dsimp only
  repeat' split
  all_goals simp

lemma traditionalSchemaRule_le (data : WebsiteData) : (traditionalSchemaRule data).2 ≤ 15 := by
  unfold traditionalSchemaRule
  repeat' split
  all_goals simp

lemma traditionalLoadRule_le (data : WebsiteData) : (traditionalLoadRule data).2 ≤ 15 := by
  unfold traditionalLoadRule
  repeat' split
  all_goals simp

lemma traditionalSeoRawScore_le (data : WebsiteData) : traditionalSeoRawScore data ≤ 100 := by
  have h1 := traditionalTitleRule_le data
  have h2 := traditionalMetaRule_le data
  have h3 := traditionalH1Rule_le data
  have h4 := traditionalImagesRule_le data
  have h5 := traditionalSchemaRule_le data
  have h6 := traditionalLoadRule_le data
  unfold traditionalSeoRawScore
  omega

lemma geoH2Rule_eq (data : WebsiteData) :
    geoH2Rule data =
      (cond (geoHasH2 data) geoH2SuccessFinding geoH2WarnFinding,
       cond (geoHasH2 data) 20 0) := by
  unfold geoH2Rule
  cases geoHasH2 data <;> simp

lemma geoTldrRule_eq (data : WebsiteData) :
    geoTldrRule data =
      (cond (geoHasTldr data) geoTldrSuccessFinding geoTldrErrorFinding,
       cond (geoHasTldr data) 25 0) := by
  unfold geoTldrRule
  cases geoHasTldr data <;> simp

lemma geoQaRule_eq (data : WebsiteData) :
    geoQaRule data =
      (cond (geoHasQa data) geoQaSuccessFinding geoQaWarnFinding,
       cond (geoHasQa data) 20 0) := by
  unfold geoQaRule
  cases geoHasQa data <;> simp

lemma geoSchemaRule_eq (data : WebsiteData) :
    geoSchemaRule data =
      (cond data.hasSchema geoSchemaSuccessFinding geoSchemaErrorFinding,
       cond data.hasSchema 20 0) := by
  unfold geoSchemaRule
  cases data.hasSchema <;> simp

lemma geoEntityRule_eq (data : WebsiteData) :
    geoEntityRule data =
      (cond (geoHasEntities data) geoEntitySuccessFinding geoEntityWarnFinding,
       cond (geoHasEntities data) 15 0) := by
  unfold geoEntityRule
  cases geoHasEntities data <;> simp

lemma geoRawScore_eq (data : WebsiteData) :
    geoRawScore data =
      cond (geoHasH2 data) 20 0 + cond (geoHasTldr data) 25 0 +
        cond (geoHasQa data) 20 0 + cond data.hasSchema 20 0 +
        cond (geoHasEntities data) 15 0 := by
  unfold geoRawScore
  rw [geoH2Rule_eq, geoTldrRule_eq, geoQaRule_eq, geoSchemaRule_eq, geoEntityRule_eq]

lemma geoRawScore_le (data : WebsiteData) : geoRawScore data ≤ 100 := by
  rw [geoRawScore_eq]
  cases geoHasH2 data <;> cases geoHasTldr data <;> cases geoHasQa data <;>
    cases data.hasSchema <;> cases geoHasEntities data <;> simp

/-- C2: for every `WebsiteData`, both rule-based scores are in `[0, 100]`
(they are naturals, so the lower bound is inherent), the raw additive sums
never exceed 100, and consequently the defensive clamp never alters them. -/
theorem scoreClampInvariant (data : WebsiteData) :
    traditionalSeoRawScore data ≤ 100 ∧
    (analyzeTraditionalSeo data).score = traditionalSeoRawScore data ∧
    (analyzeTraditionalSeo data).score ≤ 100 ∧
    geoRawScore data ≤ 100 ∧
    (analyzeGeo data).score = geoRawScore data ∧
    (analyzeGeo data).score ≤ 100 := by
  have h1 := traditionalSeoRawScore_le data
  have h2 := geoRawScore_le data
  refine ⟨h1, ?_, ?_, h2, ?_, ?_⟩ <;>
    simp [analyzeTraditionalSeo, analyzeGeo] <;> omega

/-- C2 witness: the invariant instantiated at the all-empty page. -/
theorem scoreClampInvariant_witness :
    traditionalSeoRawScore sampleAllEmpty ≤ 100 ∧
    (analyzeTraditionalSeo sampleAllEmpty).score = traditionalSeoRawScore sampleAllEmpty ∧
    (analyzeTraditionalSeo sampleAllEmpty).score ≤ 100 ∧
    geoRawScore sampleAllEmpty ≤ 100 ∧
    (analyzeGeo sampleAllEmpty).score = geoRawScore sampleAllEmpty ∧
    (analyzeGeo sampleAllEmpty).score ≤ 100 :=
  scoreClampInvariant sampleAllEmpty

/-- C5 counterexample: on the page with empty title, empty meta description,
no headings, no images, no schema and a 5000 ms load time, the number of
`error`/`warning` findings of `analyzeTraditionalSeo` is 5, not 3 as the
claim states (three errors plus two warnings; the image rule emits nothing). -/
theorem poorPageFindingCount :
    ((analyzeTraditionalSeo samplePoorPage).results.filter
        (fun f => f.type == FindingType.error || f.type == FindingType.warning)).length = 5 ∧
    ¬ ((analyzeTraditionalSeo samplePoorPage).results.filter
        (fun f => f.type == FindingType.error || f.type == FindingType.warning)).length = 3 := by
  constructor <;> decide

/-- C5 amended: that page yields score 0 and five findings, all of them
`error` or `warning`: errors for the missing title, missing meta description
and missing H1, and warnings for the absent schema markup and the slow load
time, in this order. -/
theorem poorPageReport :
    (analyzeTraditionalSeo samplePoorPage).score = 0 ∧
    (analyzeTraditionalSeo samplePoorPage).results.map (fun f => (f.type, f.title)) =
      [(FindingType.error, "Missing title tag"),
       (FindingType.error, "Missing meta description"),
       (FindingType.error, "Missing H1 tag"),
       (FindingType.warning, "No schema markup found"),
       (FindingType.warning, "Slow page load time")] := by
  constructor <;> decide

/-- C9: the keyword, blog-title, structure, FAQ and per-platform-label
fields of `generateContentSuggestions` are fixed templates, identical for
any two inputs and scores; the labels map chatgpt to medium, perplexity to
low, claude to medium and bard to low, and the template sizes are 5 keyword
entries, 4 blog titles, 12 structure lines and 4 FAQs. -/
theorem contentSuggestionsStatic (data1 data2 : WebsiteData) (aiScore1 aiScore2 : Int) :
    (generateContentSuggestions data1 aiScore1).missingKeywords =
      (generateContentSuggestions data2 aiScore2).missingKeywords ∧
    (generateContentSuggestions data1 aiScore1).blogTitles =
      (generateContentSuggestions data2 aiScore2).blogTitles ∧
    (generateContentSuggestions data1 aiScore1).contentStructure =
      (generateContentSuggestions data2 aiScore2).contentStructure ∧
    (generateContentSuggestions data1 aiScore1).faqs =
      (generateContentSuggestions data2 aiScore2).faqs ∧
    (generateContentSuggestions data1 aiScore1).aiVisibility =
      (generateContentSuggestions data2 aiScore2).aiVisibility ∧
    (generateContentSuggestions data1 aiScore1).aiVisibility =
      ⟨"medium", "low", "medium", "low"⟩ ∧
    (generateContentSuggestions data1 aiScore1).missingKeywords.length = 5 ∧
    (generateContentSuggestions data1 aiScore1).blogTitles.length = 4 ∧
    (generateContentSuggestions data1 aiScore1).contentStructure.length = 12 ∧
    (generateContentSuggestions data1 aiScore1).faqs.length = 4 :=
  ⟨rfl, rfl, rfl, rfl, rfl, rfl, rfl, rfl, rfl, rfl⟩

/-- C10: `analyzeGeo` always returns exactly 5 findings, one per rule in the
fixed order H2 structure, TL;DR, question-answer, schema, entity clarity;
each is either the rule's success variant (contributing 20, 25, 20, 20, 15
respectively) or its warning/error variant (contributing 0), and the score
is exactly the sum of the successful rules' contributions. -/
theorem geoFindingsShape (data : WebsiteData) :
    (analyzeGeo data).results.length = 5 ∧
    ∃ b1 b2 b3 b4 b5 : Bool,
      (analyzeGeo data).results =
        [cond b1 geoH2SuccessFinding geoH2WarnFinding,
         cond b2 geoTldrSuccessFinding geoTldrErrorFinding,
         cond b3 geoQaSuccessFinding geoQaWarnFinding,
         cond b4 geoSchemaSuccessFinding geoSchemaErrorFinding,
         cond b5 geoEntitySuccessFinding geoEntityWarnFinding] ∧
      (analyzeGeo data).score =
        cond b1 20 0 + cond b2 25 0 + cond b3 20 0 + cond b4 20 0 + cond b5 15 0 := by
  refine ⟨rfl, geoHasH2 data, geoHasTldr data, geoHasQa data, data.hasSchema,
    geoHasEntities data, ?_, ?_⟩
  · show [(geoH2Rule data).1, (geoTldrRule data).1, (geoQaRule data).1,
      (geoSchemaRule data).1, (geoEntityRule data).1] = _
    rw [geoH2Rule_eq, geoTldrRule_eq, geoQaRule_eq, geoSchemaRule_eq, geoEntityRule_eq]
  · show min (geoRawScore data) 100 = _
    rw [geoRawScore_eq]
    cases geoHasH2 data <;> cases geoHasTldr data <;> cases geoHasQa data <;>
      cases data.hasSchema <;> cases geoHasEntities data <;> simp

/-- C4: with a non-empty title, the title finding (the first finding of
`analyzeTraditionalSeo`) is a success contributing 20 exactly when the title
length lies in `[30, 60]`, and otherwise is a warning contributing 10;
analogously, with a non-empty meta description, the meta finding (the second
finding) is a success contributing 20 exactly when its length lies in
`[120, 160]`, and otherwise is a warning contributing 10. -/
theorem titleMetaBoundaries (data : WebsiteData) :
    (analyzeTraditionalSeo data).results.head? = some (traditionalTitleRule data).1 ∧
    (analyzeTraditionalSeo data).results[1]? = some (traditionalMetaRule data).1 ∧
    (data.title ≠ "" →
      (((traditionalTitleRule data).1.type = FindingType.success ∧
          (traditionalTitleRule data).2 = 20) ↔
        (30 ≤ data.title.length ∧ data.title.length ≤ 60)) ∧
      (data.title.length < 30 ∨ 60 < data.title.length →
        (traditionalTitleRule data).1.type = FindingType.warning ∧
          (traditionalTitleRule data).2 = 10)) ∧
    (data.metaDescription ≠ "" →
      (((traditionalMetaRule data).1.type = FindingType.success ∧
          (traditionalMetaRule data).2 = 20) ↔
        (120 ≤ data.metaDescription.length ∧ data.metaDescription.length ≤ 160)) ∧
      (data.metaDescription.length < 120 ∨ 160 < data.metaDescription.length →
        (traditionalMetaRule data).1.type = FindingType.warning ∧
          (traditionalMetaRule data).2 = 10)) := by
  refine ⟨rfl, rfl, ?_, ?_⟩
  · intro hne
    unfold traditionalTitleRule
    rw [if_neg hne]
    by_cases h30 : data.title.length < 30
    · rw [if_pos h30]
      refine ⟨?_, fun _ => by simp⟩
      simp only [and_true]
      constructor
      · intro h
        exact absurd h (by simp)
      · intro h
        omega
    · by_cases h60 : 60 < data.title.length
      · rw [if_neg h30, if_pos h60]
        refine ⟨?_, fun _ => by simp⟩
        simp only [and_true]
        constructor
        · intro h
          exact absurd h (by simp)
        · intro h
          omega
      · rw [if_neg h30, if_neg h60]
        refine ⟨?_, ?_⟩
        · simp only [and_true]
          constructor
          · intro _
            omega
          · intro _
            trivial
        · intro h
          rcases h with h | h <;> omega
  · intro hne
    unfold traditionalMetaRule
    rw [if_neg hne]
    by_cases h120 : data.metaDescription.length < 120
    · rw [if_pos h120]
      refine ⟨?_, fun _ => by simp⟩
      simp only [and_true]
      constructor
      · intro h
        exact absurd h (by simp)
      · intro h
        omega
    · by_cases h160 : 160 < data.metaDescription.length
      · rw [if_neg h120, if_pos h160]
        refine ⟨?_, fun _ => by simp⟩
        simp only [and_true]
        constructor
        · intro h
          exact absurd h (by simp)
        · intro h
          omega
      · rw [if_neg h120, if_neg h160]
        refine ⟨?_, ?_⟩
        · simp only [and_true]
          constructor
          · intro _
            omega
          · intro _
            trivial
        · intro h
          rcases h with h | h <;> omega

/-- C4 witness: on the page with a 30-character title and a 119-character
meta description, the title finding is a success worth 20 and the meta
finding is a warning worth 10. -/
theorem titleMetaBoundaries_witness :
    (traditionalTitleRule sampleBoundaryPage).1.type = FindingType.success ∧
    (traditionalTitleRule sampleBoundaryPage).2 = 20 ∧
    (traditionalMetaRule sampleBoundaryPage).1.type = FindingType.warning ∧
    (traditionalMetaRule sampleBoundaryPage).2 = 10 := by
  have h := titleMetaBoundaries sampleBoundaryPage
  have ht := (h.2.2.1 (by decide)).1.mpr (by decide)
  have hm := (h.2.2.2 (by decide)).2 (by decide)
  exact ⟨ht.1, ht.2, hm.1, hm.2⟩

lemma gai_lt50 (data : WebsiteData) {s : Int} (h : s < 50) :
    generateAiImprovements data s =
      [impTldr, impFaqSchema, impHeadings, impPeopleAlsoAsk, impDatesStats,
       impVoiceSearch] := by
  unfold generateAiImprovements
  rw [if_pos h, if_pos (by omega : s < 75), if_pos (by omega : s < 85),
    if_neg (by omega : ¬ 85 ≤ s)]
  rfl

lemma gai_mid (data : WebsiteData) {s : Int} (h1 : 50 ≤ s) (h2 : s < 75) :
    generateAiImprovements data s =
      [impHeadings, impPeopleAlsoAsk, impDatesStats, impVoiceSearch,
       impComparisonTables] := by
  unfold generateAiImprovements
  rw [if_neg (by omega : ¬ s < 50), if_pos h2, if_pos (by omega : s < 85),
    if_neg (by omega : ¬ 85 ≤ s)]
  rfl

lemma gai_high (data : WebsiteData) {s : Int} (h1 : 75 ≤ s) (h2 : s < 85) :
    generateAiImprovements data s = [impVoiceSearch, impComparisonTables] := by
  unfold generateAiImprovements
  rw [if_neg (by omega : ¬ s < 50), if_neg (by omega : ¬ s < 75), if_pos h2,
    if_neg (by omega : ¬ 85 ≤ s)]
  rfl

lemma gai_top (data : WebsiteData) {s : Int} (h : 85 ≤ s) :
    generateAiImprovements data s =
      [impAuthoritativeLinks, impStepByStep, impArticleSchema] := by
  unfold generateAiImprovements
  rw [if_neg (by omega : ¬ s < 50), if_neg (by omega : ¬ s < 75),
    if_neg (by omega : ¬ s < 85), if_pos h]
  rfl

/-- C6: `generateAiImprovements` is a staged, cumulative, threshold-gated
list truncated to its first 6 items: its length is always at most 6; the two
critical items appear exactly when the score is below 50; the three
mid-tier items exactly when below 75; the voice-search item exactly when
below 85 (the comparison-tables item is additionally pushed out of the first
six when the score is below 50); the three polish items exactly when the
score is at least 85, in which case they are the whole list. -/
theorem aiImprovementsStaged (data : WebsiteData) (s : Int) :
    (generateAiImprovements data s).length ≤ 6 ∧
    (impTldr ∈ generateAiImprovements data s ↔ s < 50) ∧
    (impFaqSchema ∈ generateAiImprovements data s ↔ s < 50) ∧
    (impHeadings ∈ generateAiImprovements data s ↔ s < 75) ∧
    (impPeopleAlsoAsk ∈ generateAiImprovements data s ↔ s < 75) ∧
    (impDatesStats ∈ generateAiImprovements data s ↔ s < 75) ∧
    (impVoiceSearch ∈ generateAiImprovements data s ↔ s < 85) ∧
    (impComparisonTables ∈ generateAiImprovements data s ↔ (50 ≤ s ∧ s < 85)) ∧
    (impAuthoritativeLinks ∈ generateAiImprovements data s ↔ 85 ≤ s) ∧
    (impStepByStep ∈ generateAiImprovements data s ↔ 85 ≤ s) ∧
    (impArticleSchema ∈ generateAiImprovements data s ↔ 85 ≤ s) ∧
    (85 ≤ s → generateAiImprovements data s =
      [impAuthoritativeLinks, impStepByStep, impArticleSchema]) := by
  rcases lt_or_le s 50 with h50 | h50
  · rw [gai_lt50 data h50]
    exact ⟨by decide, iff_of_true (by decide) h50, iff_of_true (by decide) h50,
      iff_of_true (by decide) (by omega), iff_of_true (by decide) (by omega),
      iff_of_true (by decide) (by omega), iff_of_true (by decide) (by omega),
      iff_of_false (by decide) (by omega), iff_of_false (by decide) (by omega),
      iff_of_false (by decide) (by omega), iff_of_false (by decide) (by omega),
      fun hh => absurd hh (by omega)⟩
  · rcases lt_or_le s 75 with h75 | h75
    · rw [gai_mid data h50 h75]
      exact ⟨by decide, iff_of_false (by decide) (by omega),
        iff_of_false (by decide) (by omega), iff_of_true (by decide) h75,
        iff_of_true (by decide) h75, iff_of_true (by decide) h75,
        iff_of_true (by decide) (by omega), iff_of_true (by decide) (by omega),
        iff_of_false (by decide) (by omega), iff_of_false (by decide) (by omega),
        iff_of_false (by decide) (by omega), fun hh => absurd hh (by omega)⟩
    · rcases lt_or_le s 85 with h85 | h85
      · rw [gai_high data h75 h85]
        exact ⟨by decide, iff_of_false (by decide) (by omega),
          iff_of_false (by decide) (by omega), iff_of_false (by decide) (by omega),
          iff_of_false (by decide) (by omega), iff_of_false (by decide) (by omega),
          iff_of_true (by decide) h85, iff_of_true (by decide) (by omega),
          iff_of_false (by decide) (by omega), iff_of_false (by decide) (by omega),
          iff_of_false (by decide) (by omega), fun hh => absurd hh (by omega)⟩
      · rw [gai_top data h85]
        exact ⟨by decide, iff_of_false (by decide) (by omega),
          iff_of_false (by decide) (by omega), iff_of_false (by decide) (by omega),
          iff_of_false (by decide) (by omega), iff_of_false (by decide) (by omega),
          iff_of_false (by decide) (by omega), iff_of_false (by decide) (by omega),
          iff_of_true (by decide) h85, iff_of_true (by decide) h85,
          iff_of_true (by decide) h85, fun _ => rfl⟩

/-- C6 witness: at score 30 the list contains both critical items and has
length at most 6; at score 90 it is exactly the three polish items. -/
theorem aiImprovementsStaged_witness :
    (generateAiImprovements sampleAllEmpty 30).length ≤ 6 ∧
    impTldr ∈ generateAiImprovements sampleAllEmpty 30 ∧
    impFaqSchema ∈ generateAiImprovements sampleAllEmpty 30 ∧
    generateAiImprovements sampleAllEmpty 90 =
      [impAuthoritativeLinks, impStepByStep, impArticleSchema] := by
  have h30 := aiImprovementsStaged sampleAllEmpty 30
  have h90 := aiImprovementsStaged sampleAllEmpty 90
  exact ⟨h30.1, h30.2.1.mpr (by decide), h30.2.2.1.mpr (by decide),
    h90.2.2.2.2.2.2.2.2.2.2.2 (by decide)⟩

lemma statusOf_spec (s : Nat) :
    (statusOf s = FactorStatus.pass ↔ 80 ≤ s) ∧
    (statusOf s = FactorStatus.warning ↔ (50 ≤ s ∧ s < 80)) ∧
    (statusOf s = FactorStatus.fail ↔ s < 50) := by
  unfold statusOf
  by_cases h80 : 80 ≤ s
  · rw [if_pos h80]
    exact ⟨iff_of_true rfl h80, iff_of_false (by decide) (by omega),
      iff_of_false (by decide) (by omega)⟩
  · by_cases h50 : 50 ≤ s
    · rw [if_neg h80, if_pos h50]
      exact ⟨iff_of_false (by decide) h80, iff_of_true rfl ⟨h50, by omega⟩,
        iff_of_false (by decide) (by omega)⟩
    · rw [if_neg h80, if_neg h50]
      exact ⟨iff_of_false (by decide) (by omega), iff_of_false (by decide) (by omega),
        iff_of_true rfl (by omega)⟩

/-- Shape of the report built from twelve abstract factor scores. -/
lemma aiVisibilityCoreShape (c1 c2 c3 c4 c5 c6 c7 c8 c9 c10 c11 c12 : Nat) :
    (aiVisibilityCore c1 c2 c3 c4 c5 c6 c7 c8 c9 c10 c11 c12).factors.length = 12 ∧
    (aiVisibilityCore c1 c2 c3 c4 c5 c6 c7 c8 c9 c10 c11 c12).overallScore =
      jsOverallScore
        (((aiVisibilityCore c1 c2 c3 c4 c5 c6 c7 c8 c9 c10 c11 c12).factors.map
          (fun f => f.score)).sum) ∧
    (∀ f ∈ (aiVisibilityCore c1 c2 c3 c4 c5 c6 c7 c8 c9 c10 c11 c12).factors,
      (f.status = FactorStatus.pass ↔ 80 ≤ f.score) ∧
      (f.status = FactorStatus.warning ↔ (50 ≤ f.score ∧ f.score < 80)) ∧
      (f.status = FactorStatus.fail ↔ f.score < 50)) ∧
    (aiVisibilityCore c1 c2 c3 c4 c5 c6 c7 c8 c9 c10 c11 c12).recommendations.length ≤ 8 := by
  refine ⟨rfl, ?_, ?_, ?_⟩
  · simp only [aiVisibilityCore, List.map_cons, List.map_nil,
      List.sum_cons, List.sum_nil]
    congr 1
    omega
  · intro f hf
    simp only [aiVisibilityCore, List.mem_cons, List.not_mem_nil, or_false] at hf
    rcases hf with rfl | rfl | rfl | rfl | rfl | rfl | rfl | rfl | rfl | rfl | rfl | rfl <;>
      exact statusOf_spec _
  · simp only [aiVisibilityCore, generateAiVisibilityRecommendations]
    rw [List.length_take]
    omega

/-- C3 counterexample: the source computes
`Math.round((totalScore / 1200) * 100)` in IEEE doubles — divide, then
multiply — and at the reachable factor-sum 690 the double value of
`(690/1200)*100` is just below 57.5, so the program reports 57, while exact
rounding of `690·100/1200 = 57.5` gives 58.  On `sampleRound690Page` the
twelve factor scores sum to 690 and the report's overall score is 57, not
the exact round. -/
theorem aiVisibilityRoundingCounterexample :
    (((analyzeAiPlatformVisibility 2026 sampleRound690Page).factors.map
        (fun f => f.score)).sum) = 690 ∧
    (analyzeAiPlatformVisibility 2026 sampleRound690Page).overallScore = 57 ∧
    roundDiv (690 * 100) 1200 = 58 ∧
    ¬ ((analyzeAiPlatformVisibility 2026 sampleRound690Page).overallScore =
        roundDiv
          ((((analyzeAiPlatformVisibility 2026 sampleRound690Page).factors.map
            (fun f => f.score)).sum) * 100) 1200) := by
  refine ⟨?_, ?_, ?_, ?_⟩ <;> decide

/-- C3 amended: `analyzeAiPlatformVisibility` always returns exactly 12
factors; the overall score is `Math.round((sum of the 12 factor scores /
1200) * 100)` as evaluated in IEEE binary64 arithmetic (`jsOverallScore`,
which differs from exact rounding of `sum/12` only at the sums 174, 342,
678 and 690, where the doubles land just below the half); every factor's
status is pass iff its score is at least 80, warning iff it lies in
`[50, 80)` and fail iff it is below 50; and the recommendation list has at
most 8 entries. -/
theorem aiVisibilityReportShape (currentYear : Nat) (data : WebsiteData) :
    (analyzeAiPlatformVisibility currentYear data).factors.length = 12 ∧
    (analyzeAiPlatformVisibility currentYear data).overallScore =
      jsOverallScore
        ((((analyzeAiPlatformVisibility currentYear data).factors.map
          (fun f => f.score)).sum)) ∧
    (∀ f ∈ (analyzeAiPlatformVisibility currentYear data).factors,
      (f.status = FactorStatus.pass ↔ 80 ≤ f.score) ∧
      (f.status = FactorStatus.warning ↔ (50 ≤ f.score ∧ f.score < 80)) ∧
      (f.status = FactorStatus.fail ↔ f.score < 50)) ∧
    (analyzeAiPlatformVisibility currentYear data).recommendations.length ≤ 8 := by
  unfold analyzeAiPlatformVisibility
  exact aiVisibilityCoreShape _ _ _ _ _ _ _ _ _ _ _ _

/-- C3 witness: the shape theorem instantiated at year 2026 on the all-empty
page, and the status equivalence for its first factor. -/
theorem aiVisibilityReportShape_witness :
    (analyzeAiPlatformVisibility 2026 sampleAllEmpty).factors.length = 12 ∧
    ((⟨"Public Crawlability", 80,
        "Page accessibility for AI crawlers without login walls or blocking",
        FactorStatus.pass⟩ : AiFactor).status = FactorStatus.pass ↔
      80 ≤ (⟨"Public Crawlability", 80,
        "Page accessibility for AI crawlers without login walls or blocking",
        FactorStatus.pass⟩ : AiFactor).score) := by
  have h := aiVisibilityReportShape 2026 sampleAllEmpty
  exact ⟨h.1, (h.2.2.1 _ (by decide)).1⟩

/-- C1 counterexample: `analyzeAiPlatformVisibility` depends on the
environment clock.  On the page whose content is `2026`, an invocation when
the clock year is 2026 scores freshness 40 and overall 23, while an
invocation when the clock year is 2030 scores freshness 0 and overall 20:
identical input attributes, different results at different times. -/
theorem aiVisibilityYearDependence :
    (analyzeAiPlatformVisibility 2026 sampleYearPage).overallScore = 23 ∧
    (analyzeAiPlatformVisibility 2030 sampleYearPage).overallScore = 20 ∧
    ¬ analyzeAiPlatformVisibility 2026 sampleYearPage =
        analyzeAiPlatformVisibility 2030 sampleYearPage := by
  refine ⟨?_, ?_, ?_⟩ <;> decide

/-- C1 amended: `analyzeTraditionalSeo`, `analyzeGeo` and
`generateContentSuggestions` are functions of their explicit arguments only
(they are embedded as pure functions of `data` and the score), while
`analyzeAiPlatformVisibility` additionally reads the clock's current year —
but only through `assessFreshness`: whenever `assessFreshness` agrees at two
years (in particular at equal years), the whole report agrees. -/
theorem aiVisibilityYearInvariance (data : WebsiteData) (y1 y2 : Nat)
    (h : assessFreshness y1 data = assessFreshness y2 data) :
    analyzeAiPlatformVisibility y1 data = analyzeAiPlatformVisibility y2 data := by
  unfold analyzeAiPlatformVisibility
  rw [h]

/-- C1 witness: on the all-empty page the freshness heuristic scores 0 at
both 2024 and 2030, so the reports coincide. -/
theorem aiVisibilityYearInvariance_witness :
    analyzeAiPlatformVisibility 2024 sampleAllEmpty =
      analyzeAiPlatformVisibility 2030 sampleAllEmpty :=
  aiVisibilityYearInvariance sampleAllEmpty 2024 2030 (by decide)

/-- C8 counterexample: on the all-empty page (year 2026), ten of the twelve
factors fail, yet only three high-priority recommendations are produced
(only `TL;DR & Summary`, `Q&A Format` and `Schema Markup` have fail
mappings), for four recommendations in total — under the claim, ten mapped
failures against the cap of 8 would force eight recommendations. -/
theorem aiVisibilityRecsNotPerFactor :
    ((analyzeAiPlatformVisibility 2026 sampleAllEmpty).factors.filter
        (fun f => f.status == FactorStatus.fail)).length = 10 ∧
    (analyzeAiPlatformVisibility 2026 sampleAllEmpty).recommendations.length = 4 ∧
    ((analyzeAiPlatformVisibility 2026 sampleAllEmpty).recommendations.filter
        (fun r => r.priority == "high")).length = 3 := by
  refine ⟨?_, ?_, ?_⟩ <;> decide

lemma failRecOf_eq (f : AiFactor) :
    failRecOf f =
      if f.status = FactorStatus.fail then (failRemediationFor f.factor).toList
      else [] := by
  unfold failRecOf failRemediationFor
  by_cases h : f.status = FactorStatus.fail
  · rw [if_pos h, if_pos h]
    split_ifs <;> simp
  · rw [if_neg h, if_neg h]

lemma warnRecOf_eq (f : AiFactor) :
    warnRecOf f =
      if f.status = FactorStatus.warning then (warnRemediationFor f.factor).toList
      else [] := by
  unfold warnRecOf warnRemediationFor
  by_cases h : f.status = FactorStatus.warning
  · rw [if_pos h, if_pos h]
    split_ifs <;> simp
  · rw [if_neg h, if_neg h]

lemma flatMap_failRecOf (l : List AiFactor) :
    l.flatMap failRecOf =
      (l.filter (fun f => f.status == FactorStatus.fail)).filterMap
        (fun f => failRemediationFor f.factor) := by
  induction l with
  | nil => rfl
  | cons f t ih =>
    rw [List.flatMap_cons, List.filter_cons, failRecOf_eq]
    by_cases h : f.status = FactorStatus.fail
    · rw [if_pos h]
      have hb : (f.status == FactorStatus.fail) = true := by simp [h]
      rw [hb, if_pos rfl, List.filterMap_cons]
      cases hr : failRemediationFor f.factor <;> simp [ih]
    · rw [if_neg h]
      have hb : (f.status == FactorStatus.fail) = false := by simp [h]
      rw [hb]
      simp [ih]

lemma flatMap_warnRecOf (l : List AiFactor) :
    l.flatMap warnRecOf =
      (l.filter (fun f => f.status == FactorStatus.warning)).filterMap
        (fun f => warnRemediationFor f.factor) := by
  induction l with
  | nil => rfl
  | cons f t ih =>
    rw [List.flatMap_cons, List.filter_cons, warnRecOf_eq]
    by_cases h : f.status = FactorStatus.warning
    · rw [if_pos h]
      have hb : (f.status == FactorStatus.warning) = true := by simp [h]
      rw [hb, if_pos rfl, List.filterMap_cons]
      cases hr : warnRemediationFor f.factor <;> simp [ih]
    · rw [if_neg h]
      have hb : (f.status == FactorStatus.warning) = false := by simp [h]
      rw [hb]
      simp [ih]

lemma recsSpec_eq (factors : List AiFactor) (overallScore : Nat) :
    generateAiVisibilityRecommendations factors overallScore =
      aiVisibilityRecsSpec factors overallScore := by
  unfold generateAiVisibilityRecommendations aiVisibilityRecsSpec
  rw [flatMap_failRecOf, flatMap_warnRecOf]

/-- C8 amended: the recommendations of `analyzeAiPlatformVisibility` are the
remediations of the failing factors that have one — only the three mapped
factor names — in factor order, followed by those of the warning factors
(two mapped names), followed by the generic freshness recommendation when
the overall score is below 70, capped at 8 with generation order
preserved. -/
theorem aiVisibilityRecsPipeline (currentYear : Nat) (data : WebsiteData) :
    (analyzeAiPlatformVisibility currentYear data).recommendations =
      aiVisibilityRecsSpec (analyzeAiPlatformVisibility currentYear data).factors
        (analyzeAiPlatformVisibility currentYear data).overallScore :=
  recsSpec_eq _ _

/-- C7: `compareWebsites` returns the three score differences as report2
minus report1; the better performer is `url2` exactly when the sum of the
differences is positive and `url1` otherwise; key differences contain a
`seo`-category entry iff `|seoScoreDiff| > 10`, an `ai`-category entry iff
`|aiScoreDiff| > 10` and a `visibility`-category entry iff
`|aiVisibilityDiff| > 15`; without visibility reports (the second source
variant) the better performer uses only the two score differences. -/
theorem comparisonContract (data1 : WebsiteData) (report1 : ScoreReport)
    (data2 : WebsiteData) (report2 : ScoreReport)
    (v1 v2 : AiVisibilityReport) :
    (compareWebsites data1 report1 data2 report2 v1 v2).seoScoreDiff =
      report2.seoScore - report1.seoScore ∧
    (compareWebsites data1 report1 data2 report2 v1 v2).aiScoreDiff =
      report2.aiScore - report1.aiScore ∧
    (compareWebsites data1 report1 data2 report2 v1 v2).aiVisibilityDiff =
      (v2.overallScore : Int) - (v1.overallScore : Int) ∧
    (compareWebsites data1 report1 data2 report2 v1 v2).betterPerformer =
      (if 0 < (report2.seoScore - report1.seoScore) +
          (report2.aiScore - report1.aiScore) +
          ((v2.overallScore : Int) - (v1.overallScore : Int)) then "url2"
       else "url1") ∧
    ((∃ e ∈ (compareWebsites data1 report1 data2 report2 v1 v2).keyDifferences,
        e.category = DiffCategory.seo) ↔
      10 < (report2.seoScore - report1.seoScore).natAbs) ∧
    ((∃ e ∈ (compareWebsites data1 report1 data2 report2 v1 v2).keyDifferences,
        e.category = DiffCategory.ai) ↔
      10 < (report2.aiScore - report1.aiScore).natAbs) ∧
    ((∃ e ∈ (compareWebsites data1 report1 data2 report2 v1 v2).keyDifferences,
        e.category = DiffCategory.visibility) ↔
      15 < ((v2.overallScore : Int) - (v1.overallScore : Int)).natAbs) ∧
    (compareWebsitesNoVis data1 report1 data2 report2).betterPerformer =
      (if 0 < (report2.seoScore - report1.seoScore) +
          (report2.aiScore - report1.aiScore) then "url2" else "url1") := by
  refine ⟨rfl, rfl, rfl, rfl, ?_, ?_, ?_, rfl⟩ <;>
    (by_cases hs : 10 < (report2.seoScore - report1.seoScore).natAbs <;>
      by_cases hv : 15 < ((v2.overallScore : Int) - (v1.overallScore : Int)).natAbs <;>
      by_cases ha : 10 < (report2.aiScore - report1.aiScore).natAbs <;>
      simp [compareWebsites, hs, hv, ha, cmpSeoTitleEntry, cmpSeoMetaEntry,
        cmpVisSummaryEntry, cmpVisSchemaEntry, cmpAiStructureEntry, cmpAiSchemaEntry])

/-- C7 witness: with reports scoring (70, 40) and (85, 55) and identical
visibility reports, both diffs are 15, `url2` wins, and at least one `seo`
and one `ai` key difference are emitted. -/
theorem comparisonContract_witness :
    (compareWebsites sampleAllEmpty sampleReport1 sampleAllEmpty sampleReport2
        sampleVisReport sampleVisReport).seoScoreDiff = 15 ∧
    (compareWebsites sampleAllEmpty sampleReport1 sampleAllEmpty sampleReport2
        sampleVisReport sampleVisReport).aiScoreDiff = 15 ∧
    (compareWebsites sampleAllEmpty sampleReport1 sampleAllEmpty sampleReport2
        sampleVisReport sampleVisReport).betterPerformer = "url2" ∧
    (∃ e ∈ (compareWebsites sampleAllEmpty sampleReport1 sampleAllEmpty
        sampleReport2 sampleVisReport sampleVisReport).keyDifferences,
      e.category = DiffCategory.seo) ∧
    (∃ e ∈ (compareWebsites sampleAllEmpty sampleReport1 sampleAllEmpty
        sampleReport2 sampleVisReport sampleVisReport).keyDifferences,
      e.category = DiffCategory.ai) := by
  have h := comparisonContract sampleAllEmpty sampleReport1 sampleAllEmpty
    sampleReport2 sampleVisReport sampleVisReport
  refine ⟨?_, ?_, ?_, ?_, ?_⟩
  · rw [h.1]
    decide
  · rw [h.2.1]
    decide
  · rw [h.2.2.2.1]
    decide
  · exact h.2.2.2.2.1.mpr (by decide)
  · exact h.2.2.2.2.2.1.mpr (by decide)
